import Mathlib

/-!
Verification of the token-revocation (blacklist) subsystem and the access
guards of the kitapandu backend, shallowly embedded from the TypeScript
source (`src/lib/tokenBlacklist.ts`, `src/lib/jwt.ts`, `src/middleware/auth.ts`,
`src/routes/auth.ts`).

Modelling conventions:
- The `TokenBlacklist` database table is a `List BlacklistRecord`; Prisma's
  single-record operations become list operations.  Timestamps are naturals:
  JWT claims carry seconds, `Date` values carry milliseconds (the source
  converts with `new Date(expiresAt * 1000)`).
- A database call that may fail at the store level takes an explicit
  `dbFails : Bool` argument; `dbFails = true` drives the `catch` branch of the
  corresponding `try/catch` in the source.
- `async` functions returning `Promise<void>` are embedded as returning the
  resolved value `Option Nat` (always `none`, since a `void` promise resolves
  with `undefined`) paired with the updated store state where the return
  value matters to a claim, or just the updated store otherwise.
-/

namespace Kitapandu

/-- Decoded JWT payload, from `src/lib/jwt.ts` (`interface JwtPayload`).
`role` is a string at runtime (the TS type `'admin' | 'operator'` is erased);
`jti`, `iat`, `exp` are optional fields. -/
structure JwtPayload where
  id : String
  email : String
  role : String
  jti : Option String := none
  iat : Option Nat := none
  exp : Option Nat := none
deriving Repr, DecidableEq

/-- A row of the `TokenBlacklist` table: unique token identifier, expiry
(milliseconds, as stored by `new Date(expiresAt * 1000)`), optional owner. -/
structure BlacklistRecord where
  jti : String
  expiresAtMs : Nat
  userId : Option String := none
deriving Repr, DecidableEq

/-- The `TokenBlacklist` table contents. -/
abbrev Blacklist := List BlacklistRecord

/-- Store-level errors surfaced by the database layer. -/
inductive DbError where
  /-- Unique-constraint violation on insert (Prisma error P2002). -/
  | conflict
  /-- Any other store failure. -/
  | other
deriving Repr, DecidableEq

/-- Embedding of `blacklistToken(jti, expiresAt, userId?)` from `src/lib/tokenBlacklist.ts`:
`prisma.tokenBlacklist.create({ data: { jti, expiresAt: new Date(expiresAt * 1000),
userId: userId || null } })`; on error the `catch` logs and rethrows
(`throw error`), so the failure propagates to the caller as `Except.error`.

Modelled from the spec: the Prisma schema file is absent from the source
tree; per the spec's record schema ("identifier (unique)") and the source's
`findUnique({ where: { jti } })`, `jti` is a unique column, so `create` with
an already-present identifier fails with a conflict. -/
def blacklistToken (bl : Blacklist) (jti : String) (expiresAtSec : Nat)
    (userId : Option String) : Except DbError Blacklist :=
  if bl.any (fun r => r.jti == jti) then
    .error .conflict
  else
    .ok ({ jti := jti, expiresAtMs := expiresAtSec * 1000, userId := userId } :: bl)

/-- Embedding of `isJtiBlacklisted(jti)` from `src/lib/tokenBlacklist.ts`:
`findUnique({ where: { jti } })`; absent → `false`; present and
`new Date() > expiresAt` → delete the record and return `false`; present and
current → `true`.  The whole body is wrapped in `try/catch` whose `catch`
logs and returns `false`: `dbFails = true` takes that branch.
Returns the boolean together with the table contents afterwards. -/
def isJtiBlacklisted (dbFails : Bool) (bl : Blacklist) (nowMs : Nat)
    (jti : String) : Bool × Blacklist :=
  if dbFails then
    (false, bl)
  else
    match bl.find? (fun r => r.jti == jti) with
    | none => (false, bl)
    | some r =>
      if r.expiresAtMs < nowMs then
        (false, bl.filter (fun r => !(r.jti == jti)))
      else
        (true, bl)

/-- Embedding of `cleanupExpiredTokens()` from `src/lib/tokenBlacklist.ts`:
`deleteMany({ where: { expiresAt: { lt: new Date() } } })`; the count is only
logged.  The function is declared `Promise<void>`, so it resolves with
`undefined` — first component `none`, never a number.  The `catch` swallows
any store error (`dbFails = true`), leaving the table as it was. -/
def cleanupExpiredTokens (dbFails : Bool) (bl : Blacklist) (nowMs : Nat) :
    Option Nat × Blacklist :=
  if dbFails then
    (none, bl)
  else
    (none, bl.filter (fun r => !(r.expiresAtMs < nowMs)))

/-- Embedding of `revokeUserTokens(userId)` from `src/lib/tokenBlacklist.ts`:
`deleteMany({ where: { userId } })` and return `result.count`; the `catch`
logs and returns `0` (`dbFails = true`), leaving the table as it was. -/
def revokeUserTokens (dbFails : Bool) (bl : Blacklist) (userId : String) :
    Nat × Blacklist :=
  if dbFails then
    (0, bl)
  else
    ((bl.filter (fun r => r.userId == some userId)).length,
     bl.filter (fun r => !(r.userId == some userId)))

/-! Section: credential verifier (`src/lib/jwt.ts`) -/

/-- The ways verification of a token by the external `jsonwebtoken` library
can fail.  Modelled from the spec: the library is an out-of-scope black box;
the spec's Credential Verifier lists malformed input, a bad signature and
expiry as the failure causes. -/
inductive JwtFailure where
  | malformedToken
  | invalidSignature
  | tokenExpired
deriving Repr, DecidableEq

/-- Symbolic token: the decoded content a well-formed token string carries,
plus which secret signed it.  `malformed = true` stands for a string the
library cannot parse at all. -/
structure Token where
  malformed : Bool
  signedWith : String
  payload : JwtPayload
deriving Repr, DecidableEq

/-- The process-wide signing secret (`JWT_SECRET` from the environment;
startup fails when it is absent, so at runtime it is a fixed string). -/
def JWT_SECRET : String := "process-secret"

/-- Model of `jwt.verify(token, secret)` of the external `jsonwebtoken` library.
Modelled from the spec: parse, check the signature against the secret, then
check the `exp` claim (in seconds) against the current time; each failure
throws a distinct error, surfaced here as `Except.error`. -/
def jwtVerify (secret : String) (nowSec : Nat) (t : Token) :
    Except JwtFailure JwtPayload :=
  if t.malformed then
    .error .malformedToken
  else if t.signedWith ≠ secret then
    .error .invalidSignature
  else
    match t.payload.exp with
    | some e => if e ≤ nowSec then .error .tokenExpired else .ok t.payload
    | none => .ok t.payload

/-- Model of `jwt.decode(token)` of the external library: no signature or expiry
check, just parsing.  Modelled from the spec's black-box description. -/
def jwtDecode (t : Token) : Option JwtPayload :=
  if t.malformed then none else some t.payload

/-- Embedding of `verifyToken(token)` from `src/lib/jwt.ts`: `jwt.verify` inside a
`try/catch`; any thrown error is logged and `null` is returned, whatever its
cause. -/
def verifyToken (nowSec : Nat) (t : Token) : Option JwtPayload :=
  match jwtVerify JWT_SECRET nowSec t with
  | .ok p => some p
  | .error _ => none

/-- Embedding of `generateToken(payload)` from `src/lib/jwt.ts`: draws a fresh `jti`
(`uuidv4()`, passed here as the argument `freshJti`), signs
`{ ...payload, jti }` with `JWT_SECRET` and expiry `now + TTL`.  The signing
time and configured TTL (seconds) are explicit arguments. -/
def generateToken (freshJti : String) (nowSec ttlSec : Nat)
    (id email role : String) : Token :=
  { malformed := false
    signedWith := JWT_SECRET
    payload :=
      { id := id, email := email, role := role, jti := some freshJti,
        iat := some nowSec, exp := some (nowSec + ttlSec) } }

/-- Embedding of `decodeToken(token)` from `src/lib/jwt.ts`: `jwt.decode` in a
`try/catch` returning `null` on error. -/
def decodeToken (t : Token) : Option JwtPayload :=
  jwtDecode t

/-- JavaScript `x || null` for an optional string: `undefined` and the empty
string (both falsy) give `null`. -/
def strOrNull (o : Option String) : Option String :=
  match o with
  | none => none
  | some s => if s = "" then none else some s

/-- JavaScript `x || null` for an optional number: `undefined` and `0` (both
falsy) give `null`. -/
def natOrNull (o : Option Nat) : Option Nat :=
  match o with
  | none => none
  | some n => if n = 0 then none else some n

/-- Embedding of `getTokenJti(token)` from `src/lib/jwt.ts`: `decoded?.jti || null`. -/
def getTokenJti (t : Token) : Option String :=
  strOrNull ((decodeToken t).bind (fun p => p.jti))

/-- Embedding of `getTokenExpiration(token)` from `src/lib/jwt.ts`:
`decoded?.exp || null`. -/
def getTokenExpiration (t : Token) : Option Nat :=
  natOrNull ((decodeToken t).bind (fun p => p.exp))

/-! Section: access guards (`src/middleware/auth.ts`)

A guard either sends an error response (`rejected status message`) or calls
`next()` with the verified claim attached to the request (`admitted claim`).
The mapping from token strings to their decoded content is abstracted as an
environment `env : String → Token`. -/

/-- JavaScript's `header.split(' ')` (split on every single space
character), embedded over the character list so that it evaluates by
kernel reduction. -/
def splitSpace (s : String) : List String :=
  (s.toList.splitOn ' ').map (fun cs => String.mk cs)

/-- Terminal outcome of a guard middleware on one request. -/
inductive GuardOutcome where
  | admitted (claim : JwtPayload)
  | rejected (status : Nat) (message : String)
deriving Repr, DecidableEq

/-- Embedding of `authMiddleware` from `src/middleware/auth.ts`: header present, header of
the form `Bearer <token>`, `verifyToken`, `isJtiBlacklisted(payload.jti || '')`,
role in `['admin', 'operator']`, else `req.user = payload; next()`.
`dbFails` drives the `catch` inside `isJtiBlacklisted` (the middleware's own
`catch` → 500 is unreachable from these steps, since both `verifyToken` and
`isJtiBlacklisted` catch their errors internally). -/
def authMiddleware (env : String → Token) (dbFails : Bool) (bl : Blacklist)
    (nowSec : Nat) (header : Option String) : GuardOutcome × Blacklist :=
  match header with
  | none => (.rejected 401 "Missing authorization header", bl)
  | some h =>
    let parts := splitSpace h
    if parts.length ≠ 2 ∨ parts.head? ≠ some "Bearer" then
      (.rejected 401 "Invalid authorization header format. Expected: Bearer <token>", bl)
    else
      match verifyToken nowSec (env (parts.getD 1 "")) with
      | none => (.rejected 401 "Invalid or expired token", bl)
      | some payload =>
        let res := isJtiBlacklisted dbFails bl (nowSec * 1000) (payload.jti.getD "")
        if res.1 then
          (.rejected 401 "Token has been revoked. Please login again.", res.2)
        else if payload.role == "" || !(["admin", "operator"].contains payload.role) then
          (.rejected 403 "Insufficient permissions. Only users can access this resource.", res.2)
        else
          (.admitted payload, res.2)

/-- Embedding of `requiredAdmin` from `src/middleware/auth.ts`: same steps as
`authMiddleware` with permitted roles `['admin']`. -/
def requiredAdmin (env : String → Token) (dbFails : Bool) (bl : Blacklist)
    (nowSec : Nat) (header : Option String) : GuardOutcome × Blacklist :=
  match header with
  | none => (.rejected 401 "Missing authorization header", bl)
  | some h =>
    let parts := splitSpace h
    if parts.length ≠ 2 ∨ parts.head? ≠ some "Bearer" then
      (.rejected 401 "Invalid authorization header format. Expected: Bearer <token>", bl)
    else
      match verifyToken nowSec (env (parts.getD 1 "")) with
      | none => (.rejected 401 "Invalid or expired token", bl)
      | some payload =>
        let res := isJtiBlacklisted dbFails bl (nowSec * 1000) (payload.jti.getD "")
        if res.1 then
          (.rejected 401 "Token has been revoked. Please login again.", res.2)
        else if payload.role == "" || !(["admin"].contains payload.role) then
          (.rejected 403 "Insufficient permissions. Only admin can access this resource.", res.2)
        else
          (.admitted payload, res.2)

/-! Spec-side Access Guard state machine (§4.4 of the specification), used to
state the refinement claim about check order and status mapping. -/

/-- The spec's rejection reasons, in the order of steps 1–5. -/
inductive RejectReason where
  | missingCredential
  | malformedCredential
  | invalidOrExpired
  | revokedToken
  | insufficientRole
deriving Repr, DecidableEq

/-- The spec's status mapping: missing/malformed/invalid/revoked → 401,
insufficient-role → 403. -/
def rejectStatus : RejectReason → Nat
  | .missingCredential => 401
  | .malformedCredential => 401
  | .invalidOrExpired => 401
  | .revokedToken => 401
  | .insufficientRole => 403

/-- Terminal outcome of the spec's Access Guard state machine. -/
inductive SpecOutcome where
  | admitted (claim : JwtPayload)
  | rejected (reason : RejectReason)
deriving Repr, DecidableEq

/-- The Access Guard of §4.4, written from the spec's six ordered steps,
parameterised by the guard instance's permitted role set. -/
def accessGuardSpec (permitted : List String) (env : String → Token)
    (bl : Blacklist) (nowSec : Nat) (header : Option String) : SpecOutcome :=
  match header with
  | none => .rejected .missingCredential
  | some h =>
    let parts := splitSpace h
    if parts.length ≠ 2 ∨ parts.head? ≠ some "Bearer" then
      .rejected .malformedCredential
    else
      match verifyToken nowSec (env (parts.getD 1 "")) with
      | none => .rejected .invalidOrExpired
      | some claim =>
        if (isJtiBlacklisted false bl (nowSec * 1000) (claim.jti.getD "")).1 then
          .rejected .revokedToken
        else if !(permitted.contains claim.role) then
          .rejected .insufficientRole
        else
          .admitted claim

/-- A guard outcome realises a spec outcome when admission carries the same
claim and rejection carries the spec's status for the reason. -/
def matchesSpec : GuardOutcome → SpecOutcome → Prop
  | .admitted p, .admitted q => p = q
  | .rejected s _, .rejected r => s = rejectStatus r
  | .admitted _, .rejected _ => False
  | .rejected _ _, .admitted _ => False

/-! Section: logout route (`src/routes/auth.ts`, `POST /logout`) -/

/-- Response sent by the logout handler. -/
inductive LogoutOutcome where
  | ok (message : String)
  | err (status : Nat) (message : String)
deriving Repr, DecidableEq

/-- The `POST /logout` handler body from `src/routes/auth.ts` (it runs after
`authMiddleware`; `userId` is `req.user?.id`): when the header is present it
takes `split(' ')[1]`, reads `getTokenJti` and `getTokenExpiration`, and only
`if (jti && expiration)` inserts into the blacklist; `blacklistToken`'s
rethrown error is caught and answered with 500, everything else answers
`'Logout successful'`. -/
def logoutRoute (env : String → Token) (bl : Blacklist) (header : Option String)
    (userId : Option String) : LogoutOutcome × Blacklist :=
  match header with
  | none => (.ok "Logout successful", bl)
  | some h =>
    let token := (splitSpace h).getD 1 ""
    match getTokenJti (env token), getTokenExpiration (env token) with
    | some j, some e =>
      match blacklistToken bl j e userId with
      | .ok bl2 => (.ok "Logout successful", bl2)
      | .error _ => (.err 500 "Logout failed", bl)
    | _, _ => (.ok "Logout successful", bl)

/-! Section: theorems about the claims. -/

/-- Any two distinct records of a table whose identifier column is unique
have distinct identifiers, so a record matching a looked-up identifier is
the record `find?` returns. -/
lemma eq_of_mem_of_jti_eq {bl : Blacklist}
    (hnd : (bl.map BlacklistRecord.jti).Nodup) {r s : BlacklistRecord}
    (hr : r ∈ bl) (hs : s ∈ bl) (h : r.jti = s.jti) : r = s :=
  List.inj_on_of_nodup_map hnd hr hs h

/-- C2.  `isRevoked(identifier)` returns true iff a record with that
identifier exists whose expiry is not past; an expired record is deleted by
the lookup (it is absent from the table afterwards) and reported
not-revoked; with no matching record the lookup reports false and leaves
the table unchanged.  The hypothesis is the `jti` column's uniqueness. -/
theorem isRevoked_lookup_characterisation (bl : Blacklist) (nowMs : Nat)
    (jti : String) (hnd : (bl.map BlacklistRecord.jti).Nodup) :
    ((isJtiBlacklisted false bl nowMs jti).1 = true ↔
      ∃ r ∈ bl, r.jti = jti ∧ ¬ r.expiresAtMs < nowMs)
    ∧ (∀ r ∈ bl, r.jti = jti → r.expiresAtMs < nowMs →
        (isJtiBlacklisted false bl nowMs jti).1 = false ∧
        ∀ r2 ∈ (isJtiBlacklisted false bl nowMs jti).2, r2.jti ≠ jti)
    ∧ ((∀ r ∈ bl, r.jti ≠ jti) →
        isJtiBlacklisted false bl nowMs jti = (false, bl)) := by
  have hred : isJtiBlacklisted false bl nowMs jti =
      (match bl.find? (fun r => r.jti == jti) with
        | none => (false, bl)
        | some r =>
          if r.expiresAtMs < nowMs then
            (false, bl.filter (fun r => !(r.jti == jti)))
          else
            (true, bl)) := by
    simp [isJtiBlacklisted]
  cases hfind : bl.find? (fun r => r.jti == jti) with
  | none =>
    have hall : ∀ x ∈ bl, x.jti ≠ jti := by
      intro x hx
      have := List.find?_eq_none.mp hfind x hx
      simpa using this
    have hred2 : isJtiBlacklisted false bl nowMs jti = (false, bl) := by
      rw [hred, hfind]
    rw [hred2]
    refine ⟨?_, ?_, fun _ => rfl⟩
    · refine iff_of_false (by simp) ?_
      rintro ⟨r, hr, hjti, -⟩
      exact hall r hr hjti
    · intro r hr hjti
      exact absurd hjti (hall r hr)
  | some r =>
    have hrjti : r.jti = jti := by
      have := List.find?_some hfind
      simpa using this
    have hrmem : r ∈ bl := List.mem_of_find?_eq_some hfind
    have hred2 : isJtiBlacklisted false bl nowMs jti =
        (if r.expiresAtMs < nowMs then
          (false, bl.filter (fun s => !(s.jti == jti)))
        else
          (true, bl)) := by
      rw [hred, hfind]
    by_cases hexp : r.expiresAtMs < nowMs
    · have hred3 : isJtiBlacklisted false bl nowMs jti =
          (false, bl.filter (fun s => !(s.jti == jti))) := by
        rw [hred2, if_pos hexp]
      rw [hred3]
      refine ⟨?_, ?_, ?_⟩
      · refine iff_of_false (by simp) ?_
        rintro ⟨s, hs, hsjti, hsexp⟩
        have : r = s := eq_of_mem_of_jti_eq hnd hrmem hs (hrjti.trans hsjti.symm)
        exact hsexp (this ▸ hexp)
      · intro s hs hsjti _
        refine ⟨rfl, ?_⟩
        intro r2 hr2
        have := (List.mem_filter.mp hr2).2
        simpa using this
      · intro hno
        exact absurd hrjti (hno r hrmem)
    · have hred3 : isJtiBlacklisted false bl nowMs jti = (true, bl) := by
        rw [hred2, if_neg hexp]
      rw [hred3]
      refine ⟨?_, ?_, ?_⟩
      · exact iff_of_true rfl ⟨r, hrmem, hrjti, hexp⟩
      · intro s hs hsjti hsexp
        have : r = s := eq_of_mem_of_jti_eq hnd hrmem hs (hrjti.trans hsjti.symm)
        exact absurd (this ▸ hsexp) hexp
      · intro hno
        exact absurd hrjti (hno r hrmem)

/-- Witness for C2: a record expired at 1000 ms, looked up at 5000 ms, is
reported not-revoked. -/
theorem isRevoked_lookup_characterisation_witness :
    (isJtiBlacklisted false [⟨"a", 1000, none⟩] 5000 "a").1 = false :=
  ((isRevoked_lookup_characterisation [⟨"a", 1000, none⟩] 5000 "a"
      (by decide)).2.1 ⟨"a", 1000, none⟩ (by simp) rfl (by decide)).1

/-- C3.  `revokeUserTokens(userId)` deletes exactly the revocation records
whose owner equals `userId` (un-revoking those tokens), returns how many it
deleted, and on a store error returns 0 with the table unchanged, without
propagating the error. -/
theorem revokeUserTokens_deletes_owner_records (bl : Blacklist) (uid : String) :
    revokeUserTokens true bl uid = (0, bl)
    ∧ (revokeUserTokens false bl uid).1 =
        bl.countP (fun r => r.userId == some uid)
    ∧ ∀ r : BlacklistRecord,
        r ∈ (revokeUserTokens false bl uid).2 ↔ r ∈ bl ∧ r.userId ≠ some uid := by
  refine ⟨rfl, ?_, ?_⟩
  · simp [revokeUserTokens, List.countP_eq_length_filter]
  · intro r
    simp [revokeUserTokens, List.mem_filter]

/-- Witness for C3: with one record owned by "u" and one by nobody, the call
deletes the first, keeps the second and returns 1. -/
theorem revokeUserTokens_deletes_owner_records_witness :
    revokeUserTokens true [⟨"a", 5, some "u"⟩, ⟨"b", 5, none⟩] "u"
      = (0, [⟨"a", 5, some "u"⟩, ⟨"b", 5, none⟩]) :=
  (revokeUserTokens_deletes_owner_records [⟨"a", 5, some "u"⟩, ⟨"b", 5, none⟩] "u").1

/-- Counterexample for C4: with a single record expired at 1000 ms, a call
at 5000 ms removes that one record, yet the call's resolved value carries no
number at all (`cleanupExpiredTokens` is declared `Promise<void>`), so it
does not return the count 1 of records removed as the claim states. -/
theorem purgeExpired_returns_no_count_cex :
    (cleanupExpiredTokens false [⟨"a", 1000, none⟩] 5000).2 = []
    ∧ (cleanupExpiredTokens false [⟨"a", 1000, none⟩] 5000).1.isSome = false := by
  constructor <;> rfl

/-- C4 amended.  `cleanupExpiredTokens` deletes exactly the records whose
expiry is before the current time and leaves every other record unchanged,
never propagates an error to its caller (on a store error the table is left
as it was), and an immediately repeated call removes nothing — but the
function returns no count (it is `Promise<void>`; the count is only written
to the server log). -/
theorem purgeExpired_amended (bl : Blacklist) (nowMs : Nat) :
    cleanupExpiredTokens true bl nowMs = (none, bl)
    ∧ (cleanupExpiredTokens false bl nowMs).1 = none
    ∧ (∀ r : BlacklistRecord,
        r ∈ (cleanupExpiredTokens false bl nowMs).2 ↔
          r ∈ bl ∧ ¬ r.expiresAtMs < nowMs)
    ∧ cleanupExpiredTokens false (cleanupExpiredTokens false bl nowMs).2 nowMs
        = (none, (cleanupExpiredTokens false bl nowMs).2) := by
  refine ⟨rfl, rfl, ?_, ?_⟩
  · intro r
    simp [cleanupExpiredTokens, List.mem_filter]
  · simp only [cleanupExpiredTokens, if_neg (by simp : ¬ (false : Bool) = true)]
    rw [Prod.mk.injEq]
    refine ⟨rfl, ?_⟩
    rw [List.filter_eq_self]
    intro a ha
    exact (List.mem_filter.mp ha).2

/-- Witness for C4 amended: a store error leaves a one-record table as it
was and still resolves with no value. -/
theorem purgeExpired_amended_witness :
    cleanupExpiredTokens true [⟨"a", 1000, none⟩] 5000
      = (none, [⟨"a", 1000, none⟩]) :=
  (purgeExpired_amended [⟨"a", 1000, none⟩] 5000).1

/-- C7.  `blacklistToken(jti, expiresAt, userId?)` inserts a revocation
record for the identifier when none exists; when a record with that
identifier already exists, the unique constraint makes the insert fail and
the error is rethrown to the caller (`Except.error .conflict`), not
swallowed. -/
theorem blacklistToken_insert_or_conflict (bl : Blacklist) (jti : String)
    (expiresAtSec : Nat) (uid : Option String) :
    ((∃ r ∈ bl, r.jti = jti) →
      blacklistToken bl jti expiresAtSec uid = .error .conflict)
    ∧ ((∀ r ∈ bl, r.jti ≠ jti) →
      blacklistToken bl jti expiresAtSec uid =
        .ok ({ jti := jti, expiresAtMs := expiresAtSec * 1000, userId := uid } :: bl)) := by
  constructor
  · rintro ⟨r, hr, hjti⟩
    have hany : bl.any (fun s => s.jti == jti) = true := by
      rw [List.any_eq_true]
      exact ⟨r, hr, by simpa using hjti⟩
    simp [blacklistToken, hany]
  · intro hno
    have hany : bl.any (fun s => s.jti == jti) = false := by
      rw [List.any_eq_false]
      intro s hs
      simpa using hno s hs
    simp [blacklistToken, hany]

/-- Witness for C7: revoking an identifier already present fails with a
conflict that reaches the caller. -/
theorem blacklistToken_insert_or_conflict_witness :
    blacklistToken [⟨"a", 1000, none⟩] "a" 7 none = .error .conflict :=
  (blacklistToken_insert_or_conflict [⟨"a", 1000, none⟩] "a" 7 none).1
    ⟨⟨"a", 1000, none⟩, by simp, rfl⟩

/-- True when the library-level verification of a token throws, for
whichever cause. -/
def jwtVerifyFails (nowSec : Nat) (t : Token) : Bool :=
  match jwtVerify JWT_SECRET nowSec t with
  | .ok _ => false
  | .error _ => true

/-- C6.  Whenever library verification fails — malformed token, expired
token or bad signature alike — `verifyToken` answers the single generic
signal `none`, so any two failing tokens produce identical caller-observable
output. -/
theorem verify_failures_indistinguishable (nowSec : Nat) (t1 t2 : Token)
    (h1 : jwtVerifyFails nowSec t1 = true)
    (h2 : jwtVerifyFails nowSec t2 = true) :
    verifyToken nowSec t1 = none
    ∧ verifyToken nowSec t1 = verifyToken nowSec t2 := by
  unfold jwtVerifyFails at h1 h2
  unfold verifyToken
  cases hv1 : jwtVerify JWT_SECRET nowSec t1 with
  | ok p => rw [hv1] at h1; simp at h1
  | error e1 =>
    cases hv2 : jwtVerify JWT_SECRET nowSec t2 with
    | ok q => rw [hv2] at h2; simp at h2
    | error e2 => exact ⟨rfl, rfl⟩

/-- Witness for C6: an expired token and a token signed with the wrong
secret are answered identically with `none`. -/
theorem verify_failures_indistinguishable_witness :
    verifyToken 10
      { malformed := false, signedWith := JWT_SECRET,
        payload := { id := "u", email := "e", role := "admin", exp := some 1 } }
      = none :=
  (verify_failures_indistinguishable 10
    { malformed := false, signedWith := JWT_SECRET,
      payload := { id := "u", email := "e", role := "admin", exp := some 1 } }
    { malformed := false, signedWith := "wrong-secret",
      payload := { id := "u", email := "e", role := "admin" } }
    (by decide) (by decide)).1

/-- C8.  Issuing a token for a subject and role and verifying it returns a
claim with that subject and role (and the fresh identifier, issue time and
expiry), and the revocation check on the fresh identifier — one no existing
record carries — reports not-revoked with the table untouched. -/
theorem issue_then_verify_roundtrip (freshJti : String) (nowSec ttlSec : Nat)
    (id email role : String) (bl : Blacklist) (nowMs : Nat)
    (httl : 0 < ttlSec) (hfresh : ∀ r ∈ bl, r.jti ≠ freshJti) :
    verifyToken nowSec (generateToken freshJti nowSec ttlSec id email role) =
      some { id := id, email := email, role := role, jti := some freshJti,
             iat := some nowSec, exp := some (nowSec + ttlSec) }
    ∧ isJtiBlacklisted false bl nowMs freshJti = (false, bl) := by
  constructor
  · have hexp : ¬ nowSec + ttlSec ≤ nowSec := by omega
    simp [verifyToken, jwtVerify, generateToken, hexp]
  · have hfind : bl.find? (fun r => r.jti == freshJti) = none := by
      rw [List.find?_eq_none]
      intro x hx
      simpa using hfresh x hx
    simp [isJtiBlacklisted, hfind]

/-- Witness for C8: a token issued for ("u1", "operator") with a 7-day TTL
verifies back to that subject and role, and its fresh identifier is not
revoked against a table holding an unrelated record. -/
theorem issue_then_verify_roundtrip_witness :
    verifyToken 100 (generateToken "j1" 100 604800 "u1" "e" "operator") =
      some { id := "u1", email := "e", role := "operator", jti := some "j1",
             iat := some 100, exp := some 604900 }
    ∧ isJtiBlacklisted false [⟨"a", 1000, none⟩] 0 "j1"
        = (false, [⟨"a", 1000, none⟩]) :=
  issue_then_verify_roundtrip "j1" 100 604800 "u1" "e" "operator"
    [⟨"a", 1000, none⟩] 0 (by decide) (by decide)

/-- Lemma: `authMiddleware` realises the spec's Access Guard ordered steps with
permitted roles admin and operator. -/
lemma authMiddleware_matches (env : String → Token) (bl : Blacklist)
    (nowSec : Nat) (header : Option String) :
    matchesSpec (authMiddleware env false bl nowSec header).1
      (accessGuardSpec ["admin", "operator"] env bl nowSec header) := by
  cases header with
  | none => exact rfl
  | some h =>
    simp only [authMiddleware, accessGuardSpec]
    by_cases hp : (splitSpace h).length ≠ 2 ∨ (splitSpace h).head? ≠ some "Bearer"
    · rw [if_pos hp, if_pos hp]
      exact rfl
    · rw [if_neg hp, if_neg hp]
      cases hv : verifyToken nowSec (env ((splitSpace h).getD 1 "")) with
      | none => exact rfl
      | some p =>
        simp only []
        by_cases hbl : (isJtiBlacklisted false bl (nowSec * 1000) (p.jti.getD "")).1 = true
        · rw [if_pos hbl, if_pos hbl]
          exact rfl
        · rw [if_neg hbl, if_neg hbl]
          by_cases hcond : (p.role == "" || !(["admin", "operator"].contains p.role)) = true
          · by_cases hc : (!(["admin", "operator"].contains p.role)) = true
            · rw [if_pos hcond, if_pos hc]
              exact rfl
            · exfalso
              have hcc : ["admin", "operator"].contains p.role = true := by
                cases hx : ["admin", "operator"].contains p.role with
                | false => rw [hx] at hc; exact absurd rfl hc
                | true => rfl
              rcases (show p.role = "admin" ∨ p.role = "operator" by
                  simpa using hcc) with h1 | h1 <;>
                rw [h1] at hcond <;> exact absurd hcond (by decide)
          · by_cases hc : (!(["admin", "operator"].contains p.role)) = true
            · exfalso
              refine hcond ?_
              rw [hc]
              cases hy : (p.role == "") <;> rfl
            · rw [if_neg hcond, if_neg hc]
              exact rfl

/-- Lemma: `requiredAdmin` realises the spec's Access Guard ordered steps with
permitted role admin only. -/
lemma requiredAdmin_matches (env : String → Token) (bl : Blacklist)
    (nowSec : Nat) (header : Option String) :
    matchesSpec (requiredAdmin env false bl nowSec header).1
      (accessGuardSpec ["admin"] env bl nowSec header) := by
  cases header with
  | none => exact rfl
  | some h =>
    simp only [requiredAdmin, accessGuardSpec]
    by_cases hp : (splitSpace h).length ≠ 2 ∨ (splitSpace h).head? ≠ some "Bearer"
    · rw [if_pos hp, if_pos hp]
      exact rfl
    · rw [if_neg hp, if_neg hp]
      cases hv : verifyToken nowSec (env ((splitSpace h).getD 1 "")) with
      | none => exact rfl
      | some p =>
        simp only []
        by_cases hbl : (isJtiBlacklisted false bl (nowSec * 1000) (p.jti.getD "")).1 = true
        · rw [if_pos hbl, if_pos hbl]
          exact rfl
        · rw [if_neg hbl, if_neg hbl]
          by_cases hcond : (p.role == "" || !(["admin"].contains p.role)) = true
          · by_cases hc : (!(["admin"].contains p.role)) = true
            · rw [if_pos hcond, if_pos hc]
              exact rfl
            · exfalso
              have hcc : ["admin"].contains p.role = true := by
                cases hx : ["admin"].contains p.role with
                | false => rw [hx] at hc; exact absurd rfl hc
                | true => rfl
              have h1 : p.role = "admin" := by simpa using hcc
              rw [h1] at hcond
              exact absurd hcond (by decide)
          · by_cases hc : (!(["admin"].contains p.role)) = true
            · exfalso
              refine hcond ?_
              rw [hc]
              cases hy : (p.role == "") <;> rfl
            · rw [if_neg hcond, if_neg hc]
              exact rfl

/-- C5.  Both guards evaluate their checks in the spec's fixed order —
missing header, malformed header, verification, revocation, role — and map
each terminal outcome to the specified status (401 for missing, malformed,
invalid-or-expired and revoked credentials; 403 for a verified, non-revoked
claim with a role outside the guard's permitted set), otherwise admitting
the request with the claim attached. -/
theorem guards_match_access_guard_spec (env : String → Token) (bl : Blacklist)
    (nowSec : Nat) (header : Option String) :
    matchesSpec (authMiddleware env false bl nowSec header).1
      (accessGuardSpec ["admin", "operator"] env bl nowSec header)
    ∧ matchesSpec (requiredAdmin env false bl nowSec header).1
      (accessGuardSpec ["admin"] env bl nowSec header) :=
  ⟨authMiddleware_matches env bl nowSec header,
   requiredAdmin_matches env bl nowSec header⟩

/-- A concrete valid admin token used for counterexamples: well-formed,
signed with the process secret, carrying identifier "j1". -/
def adminToken : Token :=
  { malformed := false, signedWith := JWT_SECRET,
    payload := { id := "u1", email := "e", role := "admin", jti := some "j1",
                 iat := some 0, exp := some 100 } }

/-- A token environment in which every token string decodes to
`adminToken`. -/
def constEnv : String → Token := fun _ => adminToken

/-- True exactly on the guard's internal-error outcome (HTTP 500). -/
def isServerFault (o : GuardOutcome) : Bool :=
  match o with
  | .rejected s _ => s == 500
  | .admitted _ => false

/-- Counterexample for C1: with a valid admin token whose identifier "j1"
has a current revocation record, a failing revocation-store lookup does not
produce REJECTED(internal-error): the guard silently ADMITS the request
(second conjunct: without the fault the very same request is rejected as
revoked). -/
theorem guard_internal_fault_cex :
    (authMiddleware constEnv true [⟨"j1", 999999999, none⟩] 0
        (some "Bearer t")).1 = .admitted adminToken.payload
    ∧ (authMiddleware constEnv false [⟨"j1", 999999999, none⟩] 0
        (some "Bearer t")).1
        = .rejected 401 "Token has been revoked. Please login again." := by
  constructor <;> rfl

/-- C1 amended.  A fault in the revocation-store lookup never yields the
internal-error outcome: `isJtiBlacklisted` swallows the error and reports
not-revoked, so the guard behaves exactly as it would with an empty
revocation table (fail-open) and can admit the request; only a fault that
escapes to the middleware's own catch — which none of the guard's calls
raise — would map to 500. -/
theorem guard_admits_on_revocation_lookup_fault (env : String → Token)
    (bl : Blacklist) (nowSec : Nat) (header : Option String) :
    isServerFault (authMiddleware env true bl nowSec header).1 = false
    ∧ (authMiddleware env true bl nowSec header).1
        = (authMiddleware env false [] nowSec header).1
    ∧ isServerFault (requiredAdmin env true bl nowSec header).1 = false
    ∧ (requiredAdmin env true bl nowSec header).1
        = (requiredAdmin env false [] nowSec header).1 := by
  cases header with
  | none => exact ⟨rfl, rfl, rfl, rfl⟩
  | some h =>
    simp only [authMiddleware, requiredAdmin]
    by_cases hp : (splitSpace h).length ≠ 2 ∨ (splitSpace h).head? ≠ some "Bearer"
    · simp [if_pos hp, isServerFault]
    · simp only [if_neg hp]
      cases hv : verifyToken nowSec (env ((splitSpace h).getD 1 "")) with
      | none => simp [isServerFault]
      | some p =>
        simp only []
        have e1 : isJtiBlacklisted true bl (nowSec * 1000) (p.jti.getD "")
            = (false, bl) := rfl
        have e2 : isJtiBlacklisted false [] (nowSec * 1000) (p.jti.getD "")
            = (false, []) := by
          simp [isJtiBlacklisted]
        simp only [e1, e2]
        by_cases hr1 : p.role = "" ∨ ¬p.role = "admin" ∧ ¬p.role = "operator" <;>
          by_cases hr2 : p.role = "" ∨ ¬p.role = "admin" <;>
            simp [hr1, hr2, isServerFault]

/-- Helper: `strOrNull` never produces the empty string. -/
lemma strOrNull_ne_empty {o : Option String} {s : String}
    (h : strOrNull o = some s) : s ≠ "" := by
  cases o with
  | none => simp [strOrNull] at h
  | some t =>
    by_cases ht : t = ""
    · simp [strOrNull, ht] at h
    · simp [strOrNull, ht] at h
      rw [← h]
      exact ht

/-- A concrete valid token whose payload carries no `jti` claim. -/
def noJtiToken : Token :=
  { malformed := false, signedWith := JWT_SECRET,
    payload := { id := "u2", email := "e2", role := "admin" } }

/-- C9.  A token that verifies but whose payload has no `jti` makes the
guard run the revocation check with the empty string (`payload.jti || ''`);
provided no revocation record carries the empty identifier — and none can,
since the logout route only ever inserts a non-empty identifier (last
conjunct) — the request is never rejected as revoked: it reaches the role
check untouched by the revocation step. -/
theorem missing_jti_checked_as_empty_string (env : String → Token)
    (bl : Blacklist) (nowSec : Nat) (h tok : String) (p : JwtPayload)
    (hsplit : splitSpace h = ["Bearer", tok])
    (hverify : verifyToken nowSec (env tok) = some p)
    (hjti : p.jti = none)
    (hstore : ∀ r ∈ bl, r.jti ≠ "") :
    (authMiddleware env false bl nowSec (some h)).1
      = (if (p.role == "" || !(["admin", "operator"].contains p.role)) = true
         then .rejected 403 "Insufficient permissions. Only users can access this resource."
         else .admitted p)
    ∧ (authMiddleware env false bl nowSec (some h)).2 = bl
    ∧ ∀ (env2 : String → Token) (bl2 : Blacklist) (h2 : Option String)
        (uid : Option String), (∀ r ∈ bl2, r.jti ≠ "") →
        ∀ r ∈ (logoutRoute env2 bl2 h2 uid).2, r.jti ≠ "" := by
  have hfind : bl.find? (fun r => r.jti == "") = none := by
    rw [List.find?_eq_none]
    intro x hx
    simpa using hstore x hx
  have hbl2 : isJtiBlacklisted false bl (nowSec * 1000) (p.jti.getD "")
      = (false, bl) := by
    rw [hjti]
    simp [isJtiBlacklisted, hfind]
  have hguard : authMiddleware env false bl nowSec (some h)
      = (if (p.role == "" || !(["admin", "operator"].contains p.role)) = true
         then (.rejected 403 "Insufficient permissions. Only users can access this resource.", bl)
         else (.admitted p, bl)) := by
    simp only [authMiddleware, hsplit]
    rw [if_neg (by simp)]
    have hg : (["Bearer", tok].getD 1 "") = tok := rfl
    rw [hg, hverify]
    simp only [hbl2]
    rw [if_neg (by simp)]
  refine ⟨?_, ?_, ?_⟩
  · rw [hguard]
    by_cases hr : (p.role == "" || !(["admin", "operator"].contains p.role)) = true
    · rw [if_pos hr, if_pos hr]
    · rw [if_neg hr, if_neg hr]
  · rw [hguard]
    by_cases hr : (p.role == "" || !(["admin", "operator"].contains p.role)) = true
    · rw [if_pos hr]
    · rw [if_neg hr]
  · intro env2 bl2 h2 uid hclean r hr
    cases h2 with
    | none => exact hclean r hr
    | some hh =>
      simp only [logoutRoute] at hr
      cases hj : getTokenJti (env2 ((splitSpace hh).getD 1 "")) with
      | none =>
        rw [hj] at hr
        exact hclean r hr
      | some j =>
        rw [hj] at hr
        cases he : getTokenExpiration (env2 ((splitSpace hh).getD 1 "")) with
        | none =>
          rw [he] at hr
          exact hclean r hr
        | some e =>
          rw [he] at hr
          simp only [blacklistToken] at hr
          by_cases hany : (bl2.any (fun s => s.jti == j)) = true
          · rw [if_pos hany] at hr
            exact hclean r hr
          · rw [if_neg hany] at hr
            simp only [List.mem_cons] at hr
            rcases hr with hr | hr
            · rw [hr]
              exact strOrNull_ne_empty (by simpa [getTokenJti] using hj)
            · exact hclean r hr

/-- Witness for C9: a verified admin token with no `jti` is admitted even
though the table holds a (non-empty-identifier) revocation record. -/
theorem missing_jti_checked_as_empty_string_witness :
    (authMiddleware (fun _ => noJtiToken) false [⟨"j1", 5000, none⟩] 7
        (some "Bearer t")).1 = .admitted noJtiToken.payload := by
  have hm := (missing_jti_checked_as_empty_string (fun _ => noJtiToken)
    [⟨"j1", 5000, none⟩] 7 "Bearer t" "t" noJtiToken.payload (by decide) rfl rfl
    (by decide)).1
  simpa using hm

/-- C10.  When the token presented to `POST /logout` decodes to a payload
lacking a `jti` or an `exp` claim, the handler silently skips the blacklist
insert: it answers 'Logout successful' and the revocation table is left
completely unchanged, with no error surfaced to the caller. -/
theorem logout_skips_blacklist_without_jti_or_exp (env : String → Token)
    (bl : Blacklist) (h tok : String) (uid : Option String) (p : JwtPayload)
    (hsplit : (splitSpace h).getD 1 "" = tok)
    (hdec : decodeToken (env tok) = some p)
    (hmiss : p.jti = none ∨ p.exp = none) :
    logoutRoute env bl (some h) uid = (.ok "Logout successful", bl) := by
  simp only [logoutRoute, hsplit]
  rcases hmiss with hj | he
  · have hjn : getTokenJti (env tok) = none := by
      simp [getTokenJti, hdec, hj, strOrNull]
    rw [hjn]
  · have hen : getTokenExpiration (env tok) = none := by
      simp [getTokenExpiration, hdec, he, natOrNull]
    rw [hen]
    cases hjv : getTokenJti (env tok) <;> rfl

/-- Witness for C10: logging out with a token that has neither `jti` nor
`exp` reports success and leaves the one-record table untouched. -/
theorem logout_skips_blacklist_without_jti_or_exp_witness :
    logoutRoute (fun _ => noJtiToken) [⟨"j1", 5000, none⟩] (some "Bearer t")
        (some "u2") = (.ok "Logout successful", [⟨"j1", 5000, none⟩]) :=
  logout_skips_blacklist_without_jti_or_exp (fun _ => noJtiToken)
    [⟨"j1", 5000, none⟩] "Bearer t" "t" (some "u2") noJtiToken.payload
    (by decide) rfl (Or.inl rfl)

end Kitapandu
